import Mathlib

/-!
# Verification of the ski-resort decision engine (`ski_choice.py`)

A shallow embedding of the condition-scoring and decision core of the
repository's single source file `ski_choice.py`, together with theorems
settling the spec's claims about it.

Modelling conventions:
* Python floats become `ℚ` (the algorithms are pure arithmetic; IEEE
  rounding is not load-bearing for any claim).
* A Python hourly-row dict becomes a `Row`: its `"time"`/`"hour"` keys are
  the structure fields `time`/`hour`, the numeric weather readings are the
  association list `fields` (a key absent from the dict is absent from the
  list).
* An ISO-8601 timestamp string is modelled as a `Timestamp`: `date` stands
  for the 10-character date prefix (`t.startswith(date_iso)` becomes
  `t.date = date_iso`) and `hour` for `int(t[11:13])`.
* Python's `round(x, n)` (float, banker's rounding) is modelled with
  Mathlib's `round` on `ℚ`; no claim depends on behaviour at exact ties.
* Python number formatting `f"{x:.0f}"`/`f"{x:.1f}"` inside concern strings
  is modelled by printing the correspondingly rounded rational; concern
  strings are otherwise treated as opaque data by every claim.
-/

namespace SkiChoice

/-- `clamp` from `ski_choice.py`: `max(lo, min(hi, x))`. -/
def clamp (x lo hi : ℚ) : ℚ := max lo (min hi x)

/-- Python `int()` applied to a float: truncation toward zero. -/
def intTrunc (q : ℚ) : ℤ := if q < 0 then ⌈q⌉ else ⌊q⌋

/-- Python `round(x, 1)` on the rationals. -/
def rnd1 (q : ℚ) : ℚ := (round (10 * q) : ℤ) / 10

/-- Python `round(x, 0)` on the rationals. -/
def rnd0 (q : ℚ) : ℚ := (round q : ℤ)

/-- Rendering of `f"{x:.0f}"` in concern strings. -/
def fmt0 (q : ℚ) : String := toString (round q : ℤ)

/-- Rendering of `f"{x:.1f}"` in concern strings. -/
def fmt1 (q : ℚ) : String := toString (rnd1 q)

/-- The `Resort` dataclass. -/
structure Resort where
  name : String
  short : String
  emoji : String
  region : String
  lat : ℚ
  lon : ℚ
  elevation_m : ℚ
  aspect : String
  wind_exposure : ℚ
deriving DecidableEq, Repr

def CORVIGLIA : Resort :=
  { name := "Corviglia (St. Moritz)", short := "Corviglia", emoji := "⛷️",
    region := "Engadin", lat := 46.5079, lon := 9.8192, elevation_m := 2486,
    aspect := "south", wind_exposure := 0.85 }

def CORVATSCH : Resort :=
  { name := "Corvatsch 3303", short := "Corvatsch", emoji := "🏔️",
    region := "Engadin", lat := 46.4179, lon := 9.8212, elevation_m := 3303,
    aspect := "north", wind_exposure := 1.25 }

def DIAVOLEZZA : Resort :=
  { name := "Diavolezza", short := "Diavolezza", emoji := "🧊",
    region := "Engadin", lat := 46.4073, lon := 9.9593, elevation_m := 2978,
    aspect := "north", wind_exposure := 1.30 }

def ZUOZ : Resort :=
  { name := "Zuoz (Pizzet/Albanas)", short := "Zuoz", emoji := "🌞",
    region := "Engadin", lat := 46.6029, lon := 9.9600, elevation_m := 2465,
    aspect := "south", wind_exposure := 0.90 }

def PARSENN : Resort :=
  { name := "Parsenn (Davos/Klosters)", short := "Parsenn", emoji := "🚠",
    region := "Davos", lat := 46.8400, lon := 9.8100, elevation_m := 2817,
    aspect := "north", wind_exposure := 1.10 }

def JAKOBSHORN : Resort :=
  { name := "Jakobshorn (Davos Platz)", short := "Jakobshorn", emoji := "🏂",
    region := "Davos", lat := 46.7724, lon := 9.8494, elevation_m := 2590,
    aspect := "south", wind_exposure := 1.05 }

def RINERHORN : Resort :=
  { name := "Rinerhorn", short := "Rinerhorn", emoji := "👨‍👩‍👧‍👦",
    region := "Davos", lat := 46.7394, lon := 9.8141, elevation_m := 2528,
    aspect := "south", wind_exposure := 1.00 }

def PISCHA : Resort :=
  { name := "Pischa", short := "Pischa", emoji := "🌄",
    region := "Davos", lat := 46.8096, lon := 9.9192, elevation_m := 2483,
    aspect := "south", wind_exposure := 1.15 }

def MADRISA : Resort :=
  { name := "Madrisa (Klosters)", short := "Madrisa", emoji := "🌲",
    region := "Davos", lat := 46.9253, lon := 9.8699, elevation_m := 2600,
    aspect := "north", wind_exposure := 1.05 }

def SCHATZALP : Resort :=
  { name := "Schatzalp (Strela)", short := "Schatzalp", emoji := "🐢",
    region := "Davos", lat := 46.7971, lon := 9.8215, elevation_m := 1861,
    aspect := "south", wind_exposure := 0.80 }

def ALL_RESORTS : List Resort :=
  [CORVIGLIA, CORVATSCH, DIAVOLEZZA, ZUOZ,
   PARSENN, JAKOBSHORN, RINERHORN, PISCHA, MADRISA, SCHATZALP]

/-- The dict `RESORT_BY_SHORT = {r.short: r for r in ALL_RESORTS}`,
as a lookup (shorts are pairwise distinct, so first match is the match). -/
def RESORT_BY_SHORT (short : String) : Option Resort :=
  ALL_RESORTS.find? (fun r => r.short == short)

/-- Operating window start (`START_HOUR = 9`). -/
def START_HOUR : ℕ := 9

/-- Operating window end, exclusive (`END_HOUR = 16`). -/
def END_HOUR : ℕ := 16

/-- An ISO timestamp, abstracted to its date prefix and hour-of-day. -/
structure Timestamp where
  date : String
  hour : ℕ
deriving DecidableEq, Repr

/-- One hourly record: the row dict built by `extract_window_rows`. -/
structure Row where
  time : Timestamp
  hour : ℕ
  fields : List (String × ℚ)
deriving DecidableEq, Repr

/-- The hourly dataset: the Open-Meteo `"hourly"` dict — a shared `time`
column plus named numeric columns (possibly shorter than `time`). -/
structure HourlyData where
  time : List Timestamp
  cols : List (String × List ℚ)
deriving DecidableEq, Repr

/-- `get_val(row, key, default)`: the reading if present, else the default. -/
def get_val (row : Row) (key : String) (default : ℚ) : ℚ :=
  match row.fields.lookup key with
  | some v => v
  | none => default

/--
`hour_score(resort, row)` from `ski_choice.py`, translated statement by
statement; each conditional `score -= p` / `score += b` becomes
`score - (if c then p else 0)` / `score + (if c then b else 0)`, and each
conditional `concerns.append(s)` becomes `concerns ++ (if c then [s] else [])`.
-/
def hour_score (resort : Resort) (row : Row) : ℚ × List String :=
  let temp := get_val row "temperature_2m" 0
  let apparent := get_val row "apparent_temperature" temp
  let precip := get_val row "precipitation" 0
  let snowfall := get_val row "snowfall" 0
  let cloud := get_val row "cloud_cover" 0
  let cloud_low := get_val row "cloud_cover_low" 0
  let vis := get_val row "visibility" 20000
  let wind := get_val row "wind_speed_10m" 0
  let gust := get_val row "wind_gusts_10m" 0
  let frz := get_val row "freezing_level_height" 0
  let weather_code := intTrunc (get_val row "weather_code" 0)
  let eff_gust := gust * resort.wind_exposure
  let eff_wind := wind * resort.wind_exposure
  -- 1) WIND
  let score := (100 : ℚ) -
    (if eff_gust > 60 then 50
     else if eff_gust > 45 then clamp ((eff_gust - 45) * 2.5) 0 35
     else if eff_gust > 30 then clamp ((eff_gust - 30) * 0.8) 0 12
     else 0)
  let concerns : List String :=
    (if eff_gust > 60 then [s!"Severe gusts ({fmt0 gust} km/h)"]
     else if eff_gust > 45 then [s!"High gusts ({fmt0 gust} km/h)"]
     else [])
  let score := score - clamp ((eff_wind - 20) * 0.3) 0 10
  -- 2) VISIBILITY & FOG
  let score := score -
    (if vis < 500 then 40
     else if vis < 1500 then clamp ((1500 - vis) / 40) 0 25
     else if vis < 3000 then clamp ((3000 - vis) / 150) 0 10
     else 0)
  let concerns := concerns ++
    (if vis < 500 then ["Very poor visibility (<500m)"]
     else if vis < 1500 then [s!"Low visibility ({fmt0 vis}m)"]
     else [])
  -- low cloud
  let score := score -
    (if cloud_low > 80 then 15
     else if cloud_low > 60 then clamp ((cloud_low - 60) / 4) 0 8
     else 0)
  let concerns := concerns ++
    (if cloud_low > 80 then ["Heavy low cloud (flat light)"] else [])
  -- 3) PRECIPITATION
  let score := score -
    (if precip > 3 then 30
     else if precip > 1 then clamp ((precip - 1) * 12) 0 24
     else if precip > 0.3 then clamp ((precip - 0.3) * 6) 0 8
     else 0)
  let concerns := concerns ++
    (if precip > 3 then [s!"Heavy precip ({fmt1 precip}mm/h)"]
     else if precip > 1 then [s!"Moderate precip ({fmt1 precip}mm/h)"]
     else [])
  -- fresh snow bonus
  let score := score +
    (if snowfall > 0 ∧ eff_gust < 40 ∧ precip < 1.5 then clamp (snowfall * 2) 0 8 else 0)
  -- 4) TEMPERATURE
  let score := score -
    (if temp > 0 then clamp (temp * 8) 0 30
     else if temp > -2 then clamp ((temp + 2) * 4) 0 10
     else if temp < -18 then clamp ((-18 - temp) * 2) 0 20
     else if temp < -12 then clamp ((-12 - temp) * 1.2) 0 10
     else 0)
  let concerns := concerns ++
    (if temp > 0 then [s!"Above freezing ({fmt1 temp}°C)"]
     else if temp > -2 then []
     else if temp < -18 then [s!"Very cold ({fmt1 temp}°C)"]
     else [])
  -- windchill
  let score := score -
    (if apparent < -20 then clamp ((-20 - apparent) * 0.8) 0 12 else 0)
  -- 5) FREEZING LEVEL
  let penalty := clamp ((frz - resort.elevation_m - 200) * 0.015) 0 20
  let score := score -
    (if frz > resort.elevation_m + 200 then penalty else 0)
  let concerns := concerns ++
    (if frz > resort.elevation_m + 200 ∧ penalty > 10
     then [s!"High freezing level ({fmt0 frz}m)"] else [])
  -- 6) ASPECT-SPECIFIC ADJUSTMENTS
  let score := score +
    (if resort.aspect = "south" then
      (if temp > -3 ∧ cloud < 50 then -(clamp ((temp + 3) * 2.5) 0 10) else 0)
     else
      (if temp > -2 ∧ cloud < 60 then clamp ((temp + 5) * 0.8) 0 6 else 0))
  -- 7) WEATHER CODE PENALTIES
  let score := score -
    (if weather_code ≥ 95 then 40
     else if weather_code = 75 ∨ weather_code = 77 then 5
     else if weather_code ≥ 80 then 15
     else if 61 ≤ weather_code ∧ weather_code ≤ 67 then 20
     else 0)
  let concerns := concerns ++
    (if weather_code ≥ 95 then ["Thunderstorm risk"]
     else if weather_code = 75 ∨ weather_code = 77 then []
     else if weather_code ≥ 80 then ["Rain showers"]
     else if 61 ≤ weather_code ∧ weather_code ≤ 67 then ["Rain/freezing rain"]
     else []) ;
  (clamp score 0 100, concerns)

/-- The wind factor's score contribution (gust-bracket penalty plus the
always-applied sustained-wind penalty). -/
def windDelta (resort : Resort) (row : Row) : ℚ :=
  let eff_gust := get_val row "wind_gusts_10m" 0 * resort.wind_exposure
  let eff_wind := get_val row "wind_speed_10m" 0 * resort.wind_exposure ;
  -(if eff_gust > 60 then 50
    else if eff_gust > 45 then clamp ((eff_gust - 45) * 2.5) 0 35
    else if eff_gust > 30 then clamp ((eff_gust - 30) * 0.8) 0 12
    else 0)
  - clamp ((eff_wind - 20) * 0.3) 0 10

/-- The visibility factor's score contribution. -/
def visDelta (row : Row) : ℚ :=
  let vis := get_val row "visibility" 20000 ;
  -(if vis < 500 then 40
    else if vis < 1500 then clamp ((1500 - vis) / 40) 0 25
    else if vis < 3000 then clamp ((3000 - vis) / 150) 0 10
    else 0)

/-- The low-cloud factor's score contribution. -/
def cloudLowDelta (row : Row) : ℚ :=
  let cloud_low := get_val row "cloud_cover_low" 0 ;
  -(if cloud_low > 80 then 15
    else if cloud_low > 60 then clamp ((cloud_low - 60) / 4) 0 8
    else 0)

/-- The precipitation factor's score contribution. -/
def precipDelta (row : Row) : ℚ :=
  let precip := get_val row "precipitation" 0 ;
  -(if precip > 3 then 30
    else if precip > 1 then clamp ((precip - 1) * 12) 0 24
    else if precip > 0.3 then clamp ((precip - 0.3) * 6) 0 8
    else 0)

/-- The fresh-snow bonus's score contribution. -/
def snowBonusDelta (resort : Resort) (row : Row) : ℚ :=
  let snowfall := get_val row "snowfall" 0
  let eff_gust := get_val row "wind_gusts_10m" 0 * resort.wind_exposure
  let precip := get_val row "precipitation" 0 ;
  (if snowfall > 0 ∧ eff_gust < 40 ∧ precip < 1.5 then clamp (snowfall * 2) 0 8 else 0)

/-- The temperature factor's score contribution. -/
def tempDelta (row : Row) : ℚ :=
  let temp := get_val row "temperature_2m" 0 ;
  -(if temp > 0 then clamp (temp * 8) 0 30
    else if temp > -2 then clamp ((temp + 2) * 4) 0 10
    else if temp < -18 then clamp ((-18 - temp) * 2) 0 20
    else if temp < -12 then clamp ((-12 - temp) * 1.2) 0 10
    else 0)

/-- The windchill (apparent temperature) factor's score contribution. -/
def windchillDelta (row : Row) : ℚ :=
  let apparent := get_val row "apparent_temperature" (get_val row "temperature_2m" 0) ;
  -(if apparent < -20 then clamp ((-20 - apparent) * 0.8) 0 12 else 0)

/-- The freezing-level factor's score contribution. -/
def frzDelta (resort : Resort) (row : Row) : ℚ :=
  let frz := get_val row "freezing_level_height" 0
  let penalty := clamp ((frz - resort.elevation_m - 200) * 0.015) 0 20 ;
  -(if frz > resort.elevation_m + 200 then penalty else 0)

/-- The aspect-specific adjustment's score contribution. -/
def aspectDelta (resort : Resort) (row : Row) : ℚ :=
  let temp := get_val row "temperature_2m" 0
  let cloud := get_val row "cloud_cover" 0 ;
  (if resort.aspect = "south" then
    (if temp > -3 ∧ cloud < 50 then -(clamp ((temp + 3) * 2.5) 0 10) else 0)
   else
    (if temp > -2 ∧ cloud < 60 then clamp ((temp + 5) * 0.8) 0 6 else 0))

/-- The weather-code factor's score contribution. -/
def weatherDelta (row : Row) : ℚ :=
  let weather_code := intTrunc (get_val row "weather_code" 0) ;
  -(if weather_code ≥ 95 then 40
    else if weather_code = 75 ∨ weather_code = 77 then 5
    else if weather_code ≥ 80 then 15
    else if 61 ≤ weather_code ∧ weather_code ≤ 67 then 20
    else 0)

/-- The ten per-factor contributions, in the source's evaluation order. -/
def deltaList (resort : Resort) (row : Row) : List ℚ :=
  [windDelta resort row, visDelta row, cloudLowDelta row, precipDelta row,
   snowBonusDelta resort row, tempDelta row, windchillDelta row,
   frzDelta resort row, aspectDelta resort row, weatherDelta row]

lemma hour_score_fst_eq (resort : Resort) (row : Row) :
    (hour_score resort row).1 = clamp (100 + (deltaList resort row).sum) 0 100 := by
  simp only [hour_score, deltaList, windDelta, visDelta, cloudLowDelta, precipDelta,
    snowBonusDelta, tempDelta, windchillDelta, frzDelta, aspectDelta, weatherDelta,
    List.sum_cons, List.sum_nil]
  congr 1
  ring

lemma le_clamp_left (x lo hi : ℚ) : lo ≤ clamp x lo hi := le_max_left lo _

lemma clamp_le_right (x lo hi : ℚ) (h : lo ≤ hi) : clamp x lo hi ≤ hi :=
  max_le h (min_le_left hi x)

/-- C1: for every location and hourly record — any combination of present
and absent fields, any numeric values — the score component of
`hour_score` lies in the closed interval `[0, 100]`. -/
theorem hour_score_in_bounds (resort : Resort) (row : Row) :
    0 ≤ (hour_score resort row).1 ∧ (hour_score resort row).1 ≤ 100 := by
  rw [hour_score_fst_eq]
  exact ⟨le_clamp_left _ _ _, clamp_le_right _ _ _ (by norm_num)⟩

/-- The row dict built by one iteration of the `extract_window_rows` loop at
index `i` for timestamp `t`: every column that is long enough contributes its
`i`-th entry, any other column is simply absent (`i < len(v)` in the source). -/
def buildRow (cols : List (String × List ℚ)) (i : ℕ) (t : Timestamp) : Row :=
  { time := t, hour := t.hour,
    fields := cols.filterMap (fun kv => (kv.2[i]?).map (fun x => (kv.1, x))) }

/-- The `for i, t in enumerate(times)` loop of `extract_window_rows`. -/
def extractGo (cols : List (String × List ℚ)) (date_iso : String)
    (start_h end_h : ℕ) : List (ℕ × Timestamp) → List Row
  | [] => []
  | (i, t) :: rest =>
    if t.date = date_iso ∧ start_h ≤ t.hour ∧ t.hour < end_h then
      buildRow cols i t :: extractGo cols date_iso start_h end_h rest
    else
      extractGo cols date_iso start_h end_h rest

/-- `extract_window_rows(hourly, date_iso, start_h, end_h)`. -/
def extract_window_rows (hourly : HourlyData) (date_iso : String)
    (start_h end_h : ℕ) : List Row :=
  extractGo hourly.cols date_iso start_h end_h hourly.time.enum

lemma extractGo_eq_filterMap (cols : List (String × List ℚ)) (date_iso : String)
    (s e : ℕ) (l : List (ℕ × Timestamp)) :
    extractGo cols date_iso s e l =
      (l.filter (fun it =>
        decide (it.2.date = date_iso ∧ s ≤ it.2.hour ∧ it.2.hour < e))).map
        (fun it => buildRow cols it.1 it.2) := by
  induction l with
  | nil => rfl
  | cons hd tl ih =>
    obtain ⟨i, ts⟩ := hd
    by_cases hc : ts.date = date_iso ∧ s ≤ ts.hour ∧ ts.hour < e
    · simp [extractGo, hc, ih]
    · simp [extractGo, hc, ih]

/-- C8: the Window Extractor returns exactly the records whose timestamp's
date prefix equals the target date and whose hour-of-day lies in the
half-open window `[start_h, end_h)`, in timestamp order; a field whose
column is missing or too short at an included hour is absent from that
record; and (as the right-hand side is `[]` when no hour matches) an empty
result, not an error, when nothing matches. -/
theorem extract_window_spec (hourly : HourlyData) (date_iso : String)
    (start_h end_h : ℕ) :
    extract_window_rows hourly date_iso start_h end_h =
      (hourly.time.enum.filter (fun it =>
        decide (it.2.date = date_iso ∧ start_h ≤ it.2.hour ∧ it.2.hour < end_h))).map
        (fun it =>
          { time := it.2, hour := it.2.hour,
            fields := hourly.cols.filterMap
              (fun kv => (kv.2[it.1]?).map (fun x => (kv.1, x))) }) := by
  rw [extract_window_rows, extractGo_eq_filterMap]
  simp [buildRow]

/-- Python `min` over the values of a nonempty list (`0` stands in for the
empty case, which the source never reaches). -/
def listMin : List ℚ → ℚ
  | [] => 0
  | x :: xs => xs.foldl min x

/-- Python `max` over the values of a nonempty list (`0` for the empty case,
matching the `max(vals) if vals else 0.0` pattern of `max_val`). -/
def listMax : List ℚ → ℚ
  | [] => 0
  | x :: xs => xs.foldl max x

/-- The local helper `avg` of `score_day`: mean over the records where the
field is present (`if get_val(r, key, None) is not None`), `0.0` if none is. -/
def avg (rows : List Row) (key : String) : ℚ :=
  let vals := rows.filterMap (fun r => r.fields.lookup key) ;
  if vals.isEmpty then 0 else vals.sum / (vals.length : ℚ)

/-- The local helper `max_val` of `score_day`: max of `get_val(r, key)` over
all records, `0.0` if there are none. -/
def max_val (rows : List Row) (key : String) : ℚ :=
  listMax (rows.map (fun r => get_val r key 0))

/-- The summary dict built by `score_day`. -/
structure Summary where
  temp_avg : ℚ
  temp_min : ℚ
  temp_max : ℚ
  gust_max : ℚ
  gust_eff_max : ℚ
  wind_avg : ℚ
  precip_total : ℚ
  snowfall_total : ℚ
  cloud_avg : ℚ
  cloud_low_avg : ℚ
  vis_min : ℚ
  sun_seconds : ℚ
  snow_depth_avg : ℚ
  freeze_thaw_risk : Bool
  snow_quality_hint : Option String
  flat_light_risk : Bool
deriving DecidableEq, Repr

/-- The dict returned by `score_day`; the empty summary dict `{}` of the
degenerate branch is `none`. -/
structure DayResult where
  score : ℚ
  concerns : List String
  summary : Option Summary
deriving DecidableEq, Repr

/-- `list(dict.fromkeys(xs))`: deduplicate keeping only each string's first
occurrence, never reordering. -/
def dedupFirstAux (seen : List String) : List String → List String
  | [] => []
  | x :: xs =>
    if x ∈ seen then dedupFirstAux seen xs else x :: dedupFirstAux (x :: seen) xs

/-- `list(dict.fromkeys(xs))` with no strings seen yet. -/
def dedupFirst (xs : List String) : List String := dedupFirstAux [] xs

/-- `score_day(resort, hourly, date_iso)`, with the source's local closures
`avg` and `max_val` as the top-level helpers of the same names. -/
def score_day (resort : Resort) (hourly : HourlyData) (date_iso : String) :
    DayResult :=
  let rows := extract_window_rows hourly date_iso START_HOUR END_HOUR ;
  if rows.isEmpty then { score := 0, concerns := ["No forecast data"], summary := none }
  else
    let scores := rows.map (fun r => (hour_score resort r).1)
    let all_concerns := rows.flatMap (fun r => (hour_score resort r).2)
    let temp_avg := avg rows "temperature_2m"
    let temp_min := listMin (rows.map (fun r => get_val r "temperature_2m" 0))
    let temp_max := listMax (rows.map (fun r => get_val r "temperature_2m" 0))
    let gust_max := max_val rows "wind_gusts_10m"
    let gust_eff_max := gust_max * resort.wind_exposure
    let snowfall_total := (rows.map (fun r => get_val r "snowfall" 0)).sum
    let cloud_low_avg := avg rows "cloud_cover_low"
    let vis_min := listMin (rows.map (fun r => get_val r "visibility" 20000))
    let sun_seconds := (rows.map (fun r => get_val r "sunshine_duration" 0)).sum
    let snow_depth_avg := avg rows "snow_depth"
    let freeze_thaw_risk := decide (temp_max > 0 ∧ temp_min < -2)
    let snow_quality_hint : Option String :=
      if snowfall_total > 2 then
        if temp_avg < -6 ∧ gust_eff_max < 40 then some "Dry powder-ish"
        else if gust_eff_max > 45 then some "Wind slab risk"
        else none
      else none
    let flat_light_risk := decide (cloud_low_avg > 70 ∨ vis_min < 1500)
    let summary : Summary :=
      { temp_avg := rnd1 temp_avg
        temp_min := rnd1 temp_min
        temp_max := rnd1 temp_max
        gust_max := rnd0 gust_max
        gust_eff_max := rnd0 gust_eff_max
        wind_avg := rnd0 (avg rows "wind_speed_10m")
        precip_total := rnd1 ((rows.map (fun r => get_val r "precipitation" 0)).sum)
        snowfall_total := rnd1 snowfall_total
        cloud_avg := rnd0 (avg rows "cloud_cover")
        cloud_low_avg := rnd0 cloud_low_avg
        vis_min := rnd0 vis_min
        sun_seconds := rnd0 sun_seconds
        snow_depth_avg := rnd1 snow_depth_avg
        freeze_thaw_risk := freeze_thaw_risk
        snow_quality_hint := snow_quality_hint
        flat_light_risk := flat_light_risk } ;
    { score := rnd1 (scores.sum / (scores.length : ℚ))
      concerns := (dedupFirst all_concerns).take 4
      summary := some summary }

/-- The spec's claimed resolution for mean-aggregated Summary fields,
written from the spec's words ("using the same per-field default-resolution
as the Scorer for missing values"): every record of the window contributes
to the mean, with an absent field resolved to the Scorer's default. -/
def specDefaultMean (rows : List Row) (key : String) (default : ℚ) : ℚ :=
  if rows.isEmpty then 0
  else (rows.map (fun r => get_val r key default)).sum / (rows.length : ℚ)

/-- A two-hour dataset whose temperature column covers only the first hour,
so the second extracted record has no temperature reading. -/
def partialTempData : HourlyData :=
  { time := [⟨"2026-01-05", 10⟩, ⟨"2026-01-05", 11⟩],
    cols := [("temperature_2m", [10])] }

/-- C2 counterexample: on a window whose second record lacks the
temperature field, `score_day` reports `temp_avg = 10` (the absent record
is excluded from the mean), while the claimed default-resolved mean is
`(10 + 0) / 2 = 5`. -/
theorem summary_mean_default_cex :
    ((score_day CORVIGLIA partialTempData "2026-01-05").summary.map Summary.temp_avg) ≠
      some (rnd1 (specDefaultMean
        (extract_window_rows partialTempData "2026-01-05" START_HOUR END_HOUR)
        "temperature_2m" 0)) := by
  with_unfolding_all decide

/-- C2 amended: mean-aggregated Summary fields are computed only over the
records where the field is present (via `avg`; records with the field
absent are excluded, and the mean is 0 when no record has the field),
while the min/max/sum-aggregated fields do resolve absent fields to the
Scorer's per-field defaults (0, and 20000 for visibility). -/
theorem summary_stats_amended (resort : Resort) (hourly : HourlyData)
    (date_iso : String) (rows : List Row)
    (hrows : extract_window_rows hourly date_iso START_HOUR END_HOUR = rows)
    (h : rows ≠ []) :
    ∃ s : Summary,
      (score_day resort hourly date_iso).summary = some s ∧
      s.temp_avg = rnd1 (avg rows "temperature_2m") ∧
      s.wind_avg = rnd0 (avg rows "wind_speed_10m") ∧
      s.cloud_avg = rnd0 (avg rows "cloud_cover") ∧
      s.cloud_low_avg = rnd0 (avg rows "cloud_cover_low") ∧
      s.snow_depth_avg = rnd1 (avg rows "snow_depth") ∧
      s.temp_min = rnd1 (listMin (rows.map (fun r => get_val r "temperature_2m" 0))) ∧
      s.temp_max = rnd1 (listMax (rows.map (fun r => get_val r "temperature_2m" 0))) ∧
      s.gust_max = rnd0 (listMax (rows.map (fun r => get_val r "wind_gusts_10m" 0))) ∧
      s.vis_min = rnd0 (listMin (rows.map (fun r => get_val r "visibility" 20000))) ∧
      s.precip_total = rnd1 ((rows.map (fun r => get_val r "precipitation" 0)).sum) ∧
      s.snowfall_total = rnd1 ((rows.map (fun r => get_val r "snowfall" 0)).sum) ∧
      s.sun_seconds = rnd0 ((rows.map (fun r => get_val r "sunshine_duration" 0)).sum) := by
  simp only [score_day, hrows]
  rw [if_neg (by simp [h])]
  exact ⟨_, rfl, rfl, rfl, rfl, rfl, rfl, rfl, rfl, rfl, rfl, rfl, rfl, rfl⟩

/-- C2 amended witness: the amended summary law evaluated on a concrete
two-hour window with a partially absent temperature column. -/
theorem summary_stats_amended_witness :
    ∃ s : Summary,
      (score_day CORVIGLIA partialTempData "2026-01-05").summary = some s ∧
      s.temp_avg = rnd1 (avg (extract_window_rows partialTempData "2026-01-05" START_HOUR END_HOUR) "temperature_2m") ∧
      s.wind_avg = rnd0 (avg (extract_window_rows partialTempData "2026-01-05" START_HOUR END_HOUR) "wind_speed_10m") ∧
      s.cloud_avg = rnd0 (avg (extract_window_rows partialTempData "2026-01-05" START_HOUR END_HOUR) "cloud_cover") ∧
      s.cloud_low_avg = rnd0 (avg (extract_window_rows partialTempData "2026-01-05" START_HOUR END_HOUR) "cloud_cover_low") ∧
      s.snow_depth_avg = rnd1 (avg (extract_window_rows partialTempData "2026-01-05" START_HOUR END_HOUR) "snow_depth") ∧
      s.temp_min = rnd1 (listMin ((extract_window_rows partialTempData "2026-01-05" START_HOUR END_HOUR).map (fun r => get_val r "temperature_2m" 0))) ∧
      s.temp_max = rnd1 (listMax ((extract_window_rows partialTempData "2026-01-05" START_HOUR END_HOUR).map (fun r => get_val r "temperature_2m" 0))) ∧
      s.gust_max = rnd0 (listMax ((extract_window_rows partialTempData "2026-01-05" START_HOUR END_HOUR).map (fun r => get_val r "wind_gusts_10m" 0))) ∧
      s.vis_min = rnd0 (listMin ((extract_window_rows partialTempData "2026-01-05" START_HOUR END_HOUR).map (fun r => get_val r "visibility" 20000))) ∧
      s.precip_total = rnd1 (((extract_window_rows partialTempData "2026-01-05" START_HOUR END_HOUR).map (fun r => get_val r "precipitation" 0)).sum) ∧
      s.snowfall_total = rnd1 (((extract_window_rows partialTempData "2026-01-05" START_HOUR END_HOUR).map (fun r => get_val r "snowfall" 0)).sum) ∧
      s.sun_seconds = rnd0 (((extract_window_rows partialTempData "2026-01-05" START_HOUR END_HOUR).map (fun r => get_val r "sunshine_duration" 0)).sum) :=
  summary_stats_amended CORVIGLIA partialTempData "2026-01-05" _ rfl (by with_unfolding_all decide)

/-- C6: for a non-empty window, the day's concern list is the concatenation
of the hourly concern lists in hour order, deduplicated keeping first
occurrences, truncated to at most 4; and the day score is the arithmetic
mean of the hour scores rounded to one decimal. -/
theorem day_aggregation (resort : Resort) (hourly : HourlyData) (date_iso : String)
    (rows : List Row)
    (hrows : extract_window_rows hourly date_iso START_HOUR END_HOUR = rows)
    (h : rows ≠ []) :
    (score_day resort hourly date_iso).concerns =
      (dedupFirst (rows.flatMap (fun r => (hour_score resort r).2))).take 4 ∧
    (score_day resort hourly date_iso).score =
      rnd1 ((rows.map (fun r => (hour_score resort r).1)).sum / (rows.length : ℚ)) := by
  simp only [score_day, hrows]
  rw [if_neg (by simp [h])]
  exact ⟨rfl, by simp⟩

/-- C6 witness: the aggregation law evaluated on a concrete two-hour window. -/
theorem day_aggregation_witness :
    (score_day CORVIGLIA partialTempData "2026-01-05").concerns =
      (dedupFirst ((extract_window_rows partialTempData "2026-01-05" START_HOUR END_HOUR).flatMap
        (fun r => (hour_score CORVIGLIA r).2))).take 4 ∧
    (score_day CORVIGLIA partialTempData "2026-01-05").score =
      rnd1 (((extract_window_rows partialTempData "2026-01-05" START_HOUR END_HOUR).map
        (fun r => (hour_score CORVIGLIA r).1)).sum /
        ((extract_window_rows partialTempData "2026-01-05" START_HOUR END_HOUR).length : ℚ)) :=
  day_aggregation CORVIGLIA partialTempData "2026-01-05" _ rfl (by with_unfolding_all decide)

/-- One step of Python's stable descending sort: `x` goes after every
element with strictly greater score and before the first with score ≤ its
own, so an equal-scoring earlier element stays earlier. -/
def insertDesc (x : String × DayResult) :
    List (String × DayResult) → List (String × DayResult)
  | [] => [x]
  | y :: ys => if y.2.score > x.2.score then y :: insertDesc x ys else x :: y :: ys

/-- `rank_resorts(day_results)`: Python's
`sorted(items, key=lambda kv: kv[1].get("score", 0), reverse=True)` — a
stable descending sort by score, here as an insertion sort (`"score"` is
always present in a `score_day` result, so the `.get` default never fires). -/
def rank_resorts : List (String × DayResult) → List (String × DayResult)
  | [] => []
  | x :: xs => insertDesc x (rank_resorts xs)

lemma insertDesc_perm (x : String × DayResult) (l : List (String × DayResult)) :
    (insertDesc x l).Perm (x :: l) := by
  induction l with
  | nil => exact List.Perm.refl _
  | cons y ys ih =>
    by_cases h : y.2.score > x.2.score
    · simpa [insertDesc, h] using ((ih.cons y).trans (List.Perm.swap x y ys))
    · simp [insertDesc, h]

lemma rank_resorts_perm (l : List (String × DayResult)) :
    (rank_resorts l).Perm l := by
  induction l with
  | nil => exact List.Perm.refl _
  | cons x xs ih => exact (insertDesc_perm x (rank_resorts xs)).trans (ih.cons x)

lemma insertDesc_pairwise (x : String × DayResult) (l : List (String × DayResult))
    (hl : l.Pairwise (fun a b => b.2.score ≤ a.2.score)) :
    (insertDesc x l).Pairwise (fun a b => b.2.score ≤ a.2.score) := by
  induction l with
  | nil => simp [insertDesc]
  | cons y ys ih =>
    rw [List.pairwise_cons] at hl
    obtain ⟨hy, hys⟩ := hl
    by_cases h : y.2.score > x.2.score
    · rw [insertDesc, if_pos h, List.pairwise_cons]
      refine ⟨fun z hz => ?_, ih hys⟩
      rcases List.mem_cons.mp ((insertDesc_perm x ys).mem_iff.mp hz) with hzx | hzys
      · subst hzx; exact le_of_lt h
      · exact hy z hzys
    · rw [insertDesc, if_neg h, List.pairwise_cons]
      refine ⟨fun z hz => ?_, List.pairwise_cons.mpr ⟨hy, hys⟩⟩
      rcases List.mem_cons.mp hz with hzy | hzys
      · subst hzy; exact not_lt.mp h
      · exact le_trans (hy z hzys) (not_lt.mp h)

lemma rank_resorts_pairwise (l : List (String × DayResult)) :
    (rank_resorts l).Pairwise (fun a b => b.2.score ≤ a.2.score) := by
  induction l with
  | nil => simp [rank_resorts]
  | cons x xs ih => exact insertDesc_pairwise x (rank_resorts xs) ih

lemma filter_insertDesc (x : String × DayResult) (l : List (String × DayResult)) (q : ℚ) :
    (insertDesc x l).filter (fun kv => decide (kv.2.score = q)) =
      if x.2.score = q then
        x :: l.filter (fun kv => decide (kv.2.score = q))
      else l.filter (fun kv => decide (kv.2.score = q)) := by
  induction l with
  | nil => by_cases hx : x.2.score = q <;> simp [insertDesc, hx]
  | cons y ys ih =>
    by_cases h : y.2.score > x.2.score
    · rw [insertDesc, if_pos h]
      by_cases hx : x.2.score = q
      · have hy : ¬(y.2.score = q) := by rw [← hx]; exact ne_of_gt h
        simp [List.filter_cons, hy, ih, hx]
      · simp [List.filter_cons, ih, hx]
    · rw [insertDesc, if_neg h]
      by_cases hx : x.2.score = q <;> simp [List.filter_cons, hx]

lemma rank_resorts_filter (l : List (String × DayResult)) (q : ℚ) :
    (rank_resorts l).filter (fun kv => decide (kv.2.score = q)) =
      l.filter (fun kv => decide (kv.2.score = q)) := by
  induction l with
  | nil => rfl
  | cons x xs ih =>
    rw [rank_resorts, filter_insertDesc]
    by_cases hx : x.2.score = q <;> simp [hx, ih, List.filter_cons]

/-- C4: the ranking is a permutation of the input mapping, sorted in
descending order of day score, and stable: for every score value, the
entries carrying that score appear in exactly their input order. -/
theorem ranking_sorted_stable (day_results : List (String × DayResult)) :
    (rank_resorts day_results).Perm day_results ∧
    (rank_resorts day_results).Pairwise (fun a b => b.2.score ≤ a.2.score) ∧
    ∀ q : ℚ, (rank_resorts day_results).filter (fun kv => decide (kv.2.score = q)) =
      day_results.filter (fun kv => decide (kv.2.score = q)) :=
  ⟨rank_resorts_perm day_results, rank_resorts_pairwise day_results,
   fun q => rank_resorts_filter day_results q⟩

/-- `day_results[s]["score"]` (a key outside the dict would be a `KeyError`
in the source; it is modelled as 0 and the pipeline only looks up keys of
the dict). -/
def scoreOf (day_results : List (String × DayResult)) (s : String) : ℚ :=
  ((day_results.lookup s).map DayResult.score).getD 0

/-- `calculate_confidence(day_results, ranking)`. -/
def calculate_confidence (day_results : List (String × DayResult))
    (ranking : List String) : String × ℚ × ℚ :=
  if ranking.length < 2 then ("High", 0, 0)
  else
    let scores := ranking.map (scoreOf day_results)
    let spread_1_2 := scores.getD 0 0 - scores.getD 1 0
    let spread_1_5 := if ranking.length ≥ 5 then scores.getD 0 0 - scores.getD 4 0 else 0
    let confidence :=
      if spread_1_2 ≥ 10 then "High"
      else if spread_1_2 ≥ 5 then "Medium"
      else "Low" ;
    (confidence, spread_1_2, spread_1_5)

lemma getD_map_eq (f : String → ℚ) (l : List String) (i : ℕ) (h : i < l.length) :
    (l.map f).getD i 0 = f (l.getD i "") := by
  rw [List.getD_eq_getElem?_getD, List.getD_eq_getElem?_getD, List.getElem?_map,
    List.getElem?_eq_getElem h]
  rfl

lemma confidence_label_eq (g : ℚ) :
    (if g ≥ 10 then "High" else if g ≥ 5 then "Medium" else "Low") =
      (if 10 ≤ g then "High" else if 5 ≤ g ∧ g < 10 then "Medium" else "Low") := by
  by_cases h10 : (10:ℚ) ≤ g
  · simp [h10]
  · by_cases h5 : (5:ℚ) ≤ g
    · simp [h10, h5, lt_of_not_ge h10]
    · simp [h10, h5]

/-- C3: with fewer than 2 ranked entries the confidence is `"High"` with
both gaps 0; otherwise the label is a function of
`gap1 = score[rank1] - score[rank2]` alone — `"High"` iff `gap1 ≥ 10`
(boundary 10 included), `"Medium"` iff `5 ≤ gap1 < 10` (boundary 5
included), `"Low"` iff `gap1 < 5` — and the rank1-to-rank5 gap is reported
when at least 5 are ranked and is 0 otherwise. -/
theorem confidence_spec (day_results : List (String × DayResult))
    (ranking : List String) :
    calculate_confidence day_results ranking =
      if ranking.length < 2 then ("High", 0, 0)
      else
        let gap1 := scoreOf day_results (ranking.getD 0 "") -
          scoreOf day_results (ranking.getD 1 "")
        let gap5 := if 5 ≤ ranking.length then
            scoreOf day_results (ranking.getD 0 "") -
              scoreOf day_results (ranking.getD 4 "")
          else 0 ;
        ((if 10 ≤ gap1 then "High"
          else if 5 ≤ gap1 ∧ gap1 < 10 then "Medium"
          else "Low"), gap1, gap5) := by
  by_cases hlen : ranking.length < 2
  · simp [calculate_confidence, hlen]
  · have e0 := getD_map_eq (scoreOf day_results) ranking 0 (by omega)
    have e1 := getD_map_eq (scoreOf day_results) ranking 1 (by omega)
    simp only [calculate_confidence, if_neg hlen]
    rw [e0, e1]
    by_cases h5 : 5 ≤ ranking.length
    · have e4 := getD_map_eq (scoreOf day_results) ranking 4 (by omega)
      rw [if_pos h5, if_pos h5, e4,
        confidence_label_eq (scoreOf day_results (ranking.getD 0 "") -
          scoreOf day_results (ranking.getD 1 ""))]
    · rw [if_neg h5, if_neg h5,
        confidence_label_eq (scoreOf day_results (ranking.getD 0 "") -
          scoreOf day_results (ranking.getD 1 ""))]

/-- The tuple returned by `decide_day_multi`. -/
structure DayDecision where
  pick : String
  emoji : String
  reason : String
  ranking : List String
  confidence : String
  spread_1_2 : ℚ
  spread_1_5 : ℚ
deriving DecidableEq, Repr

/-- `decide_day_multi(day_results)`; the `RESORT_BY_SHORT[pick]` lookup of
a key outside the registry (a `KeyError` in the source, unreachable from
the pipeline) is modelled by the sentinel emoji. -/
def decide_day_multi (day_results : List (String × DayResult)) : DayDecision :=
  let ranking := rank_resorts day_results ;
  if ranking.isEmpty then
    { pick := "N/A", emoji := "❓", reason := "No forecast data", ranking := [],
      confidence := "High", spread_1_2 := 0, spread_1_5 := 0 }
  else
    let emptyRes : DayResult := { score := 0, concerns := [], summary := none }
    let pick_short := (ranking.getD 0 ("", emptyRes)).1
    let pick_emoji := ((RESORT_BY_SHORT pick_short).map Resort.emoji).getD "❓"
    let ranking_shorts := ranking.map Prod.fst
    let conf := calculate_confidence day_results ranking_shorts
    let reason :=
      if 2 ≤ ranking.length then
        let second_short := (ranking.getD 1 ("", emptyRes)).1
        let diff := (ranking.getD 0 ("", emptyRes)).2.score -
          (ranking.getD 1 ("", emptyRes)).2.score ;
        if diff ≥ 8 then s!"{pick_short} leads by {fmt0 diff} pts over {second_short}"
        else s!"Close call: {pick_short} +{fmt0 diff} pts vs {second_short}"
      else "Best available score" ;
    { pick := pick_short, emoji := pick_emoji, reason := reason,
      ranking := ranking_shorts, confidence := conf.1,
      spread_1_2 := conf.2.1, spread_1_5 := conf.2.2 }

/-- An hourly dataset with no records at all. -/
def emptyData : HourlyData := { time := [], cols := [] }

/-- C5: degenerate inputs are resolved, not failures: an empty operating
window yields exactly score 0, concerns `["No forecast data"]` and an empty
summary; and the empty location mapping yields the `"N/A"` sentinel pick —
which is not a registered location — with confidence `"High"` and both
score gaps 0. -/
theorem degenerate_inputs (resort : Resort) (hourly : HourlyData)
    (date_iso : String)
    (h : extract_window_rows hourly date_iso START_HOUR END_HOUR = []) :
    score_day resort hourly date_iso =
      { score := 0, concerns := ["No forecast data"], summary := none } ∧
    decide_day_multi [] =
      { pick := "N/A", emoji := "❓", reason := "No forecast data", ranking := [],
        confidence := "High", spread_1_2 := 0, spread_1_5 := 0 } ∧
    RESORT_BY_SHORT "N/A" = none := by
  refine ⟨?_, rfl, by with_unfolding_all decide⟩
  simp [score_day, h]

/-- C5 witness: the degenerate laws at a concrete empty dataset. -/
theorem degenerate_inputs_witness :
    score_day CORVIGLIA emptyData "2026-01-05" =
      { score := 0, concerns := ["No forecast data"], summary := none } ∧
    decide_day_multi [] =
      { pick := "N/A", emoji := "❓", reason := "No forecast data", ranking := [],
        confidence := "High", spread_1_2 := 0, spread_1_5 := 0 } ∧
    RESORT_BY_SHORT "N/A" = none :=
  degenerate_inputs CORVIGLIA emptyData "2026-01-05" rfl

/-- Python's `max(xs, key=f)` on a list: the first element attaining the
maximal key (the running best is replaced only on strictly greater). -/
def python_max {α : Type} (f : α → ℚ) : List α → Option α
  | [] => none
  | x :: xs =>
    match python_max f xs with
    | none => some x
    | some y => if f y > f x then some y else some x

lemma python_max_spec {α : Type} (f : α → ℚ) :
    ∀ l : List α, l ≠ [] →
      ∃ x pre post, python_max f l = some x ∧ l = pre ++ x :: post ∧
        (∀ y ∈ pre, f y < f x) ∧ (∀ y ∈ l, f y ≤ f x) := by
  intro l
  induction l with
  | nil => intro h; exact absurd rfl h
  | cons a l ih =>
    intro _
    cases l with
    | nil =>
      refine ⟨a, [], [], rfl, rfl, by simp, ?_⟩
      intro y hy
      obtain rfl := List.mem_singleton.mp hy
      exact le_refl _
    | cons b l' =>
      obtain ⟨x, pre, post, hpm, heq, hpre, hall⟩ := ih (by simp)
      by_cases hgt : f x > f a
      · refine ⟨x, a :: pre, post, ?_, ?_, ?_, ?_⟩
        · rw [python_max, hpm]
          show (if f x > f a then some x else some a) = some x
          exact if_pos hgt
        · rw [heq]; rfl
        · intro y hy
          rcases List.mem_cons.mp hy with hya | hyp
          · subst hya; exact hgt
          · exact hpre y hyp
        · intro y hy
          rcases List.mem_cons.mp hy with hya | hyl
          · subst hya; exact le_of_lt hgt
          · exact hall y hyl
      · refine ⟨a, [], b :: l', ?_, rfl, by simp, ?_⟩
        · rw [python_max, hpm]
          show (if f x > f a then some x else some a) = some a
          exact if_neg hgt
        · intro y hy
          rcases List.mem_cons.mp hy with hya | hyl
          · subst hya
            exact le_refl _
          · exact le_trans (hall y hyl) (not_lt.mp hgt)

/-- `best_in_region(day_results, region)`; an unregistered key (a
`KeyError` in the source, unreachable from the pipeline) is treated as
belonging to no region. -/
def best_in_region (day_results : List (String × DayResult)) (region : String) :
    Option String :=
  let candidates := day_results.filter
    (fun kv => (RESORT_BY_SHORT kv.1).any (fun r => r.region == region)) ;
  if candidates.isEmpty then none
  else (python_max (fun kv => kv.2.score) candidates).map Prod.fst

/-- C9: `best_in_region` returns no value when the mapping has no entry of
the region; otherwise it returns a key of the region whose day score is
maximal among the region's entries — the first such key in the mapping's
iteration order (every region entry before it scores strictly less, and
none scores more). -/
theorem best_in_region_spec (day_results : List (String × DayResult))
    (region : String) :
    (day_results.filter
        (fun kv => (RESORT_BY_SHORT kv.1).any (fun r => r.region == region)) = [] →
      best_in_region day_results region = none) ∧
    (day_results.filter
        (fun kv => (RESORT_BY_SHORT kv.1).any (fun r => r.region == region)) ≠ [] →
      ∃ s res pre post,
        best_in_region day_results region = some s ∧
        day_results.filter
          (fun kv => (RESORT_BY_SHORT kv.1).any (fun r => r.region == region)) =
          pre ++ (s, res) :: post ∧
        (RESORT_BY_SHORT s).any (fun r => r.region == region) = true ∧
        (∀ kv ∈ pre, kv.2.score < res.score) ∧
        (∀ kv ∈ day_results.filter
            (fun kv => (RESORT_BY_SHORT kv.1).any (fun r => r.region == region)),
          kv.2.score ≤ res.score)) := by
  constructor
  · intro h
    simp [best_in_region, h]
  · intro h
    obtain ⟨x, pre, post, hpm, heq, hpre, hall⟩ :=
      python_max_spec (fun kv => kv.2.score) _ h
    have hememb : x ∈ day_results.filter
        (fun kv => (RESORT_BY_SHORT kv.1).any (fun r => r.region == region)) := by
      rw [heq]; exact List.mem_append_right pre (List.mem_cons_self x post)
    have hxpred := (List.mem_filter.mp hememb).2
    refine ⟨x.1, x.2, pre, post, ?_, ?_, hxpred, hpre, hall⟩
    · have hne : (day_results.filter
          (fun kv => (RESORT_BY_SHORT kv.1).any (fun r => r.region == region))).isEmpty
          = false := by
        rw [List.isEmpty_eq_false]
        exact h
      simp [best_in_region, hne, hpm]
    · rw [heq]

/-- A stormy hour (severe gusts, fog, heavy rain, warm, thunderstorm code)
whose raw factor total lies well below the clamp floor. -/
def stormyRow : Row :=
  { time := ⟨"2026-01-05", 12⟩, hour := 12,
    fields := [("temperature_2m", 4), ("precipitation", 10),
               ("wind_gusts_10m", 100), ("wind_speed_10m", 80),
               ("visibility", 100), ("cloud_cover_low", 90),
               ("weather_code", 96)] }

/-- C7: the hour score equals 100 plus the sum of the ten independent
per-factor contributions (wind, visibility, low cloud, precipitation,
fresh-snow bonus, temperature, windchill, freezing level, aspect, weather
code), clamped to [0,100] exactly once at the end; consequently the score
is invariant under any reordering of the contributions; and the
intermediate total may transiently leave the bounds, as the concrete
stormy hour shows (raw total below 0, final score exactly 0). -/
theorem score_additive_decomposition (resort : Resort) (row : Row) :
    ((hour_score resort row).1 = clamp (100 + (deltaList resort row).sum) 0 100 ∧
      ∀ l : List ℚ, l.Perm (deltaList resort row) →
        clamp (100 + l.sum) 0 100 = (hour_score resort row).1) ∧
    (100 + (deltaList CORVATSCH stormyRow).sum < 0 ∧
      (hour_score CORVATSCH stormyRow).1 = 0) := by
  refine ⟨⟨hour_score_fst_eq resort row, fun l hl => ?_⟩, ?_, ?_⟩
  · rw [hl.sum_eq, hour_score_fst_eq]
  · with_unfolding_all decide
  · with_unfolding_all decide

/-- C7 witness: reordering the factor contributions (here: reversing them)
leaves the concrete stormy hour's score unchanged. -/
theorem score_additive_decomposition_witness :
    clamp (100 + ((deltaList CORVATSCH stormyRow).reverse).sum) 0 100 =
      (hour_score CORVATSCH stormyRow).1 :=
  (score_additive_decomposition CORVATSCH stormyRow).1.2
    ((deltaList CORVATSCH stormyRow).reverse)
    (List.reverse_perm (deltaList CORVATSCH stormyRow))

/-- C10: every location whose aspect is not exactly `"south"` is treated as
north-facing by the aspect adjustment: its contribution follows the
north-facing snow-holding bonus rule (+0.8 per degree above -5, capped at
+6, applied when temperature > -2 and total cloud < 60), is identical to
that of the same resort re-aspected `"north"`, and the south-facing
sun-softening penalty never applies (the contribution is never negative). -/
theorem aspect_nonsouth (resort : Resort) (row : Row)
    (h : resort.aspect ≠ "south") :
    aspectDelta resort row =
      (if get_val row "temperature_2m" 0 > -2 ∧ get_val row "cloud_cover" 0 < 60 then
        clamp ((get_val row "temperature_2m" 0 + 5) * 0.8) 0 6
       else 0) ∧
    aspectDelta resort row = aspectDelta { resort with aspect := "north" } row ∧
    0 ≤ aspectDelta resort row := by
  have hn : ¬(({ resort with aspect := "north" } : Resort).aspect = "south") := by
    simp
  refine ⟨?_, ?_, ?_⟩
  · simp only [aspectDelta]
    rw [if_neg h]
  · simp only [aspectDelta]
    rw [if_neg h, if_neg hn]
  · simp only [aspectDelta]
    rw [if_neg h]
    split
    · exact le_clamp_left _ _ _
    · exact le_refl 0

/-- A resort whose aspect lies outside the documented `{south, north}` set. -/
def eastTestResort : Resort := { CORVIGLIA with aspect := "east" }

/-- A mild, mostly clear hour. -/
def mildRow : Row :=
  { time := ⟨"2026-01-05", 12⟩, hour := 12,
    fields := [("temperature_2m", 1), ("cloud_cover", 20)] }

/-- C10 witness: the non-south aspect law at a concrete east-facing resort
and a concrete mild hour. -/
theorem aspect_nonsouth_witness :
    eastTestResort.aspect ≠ "south" ∧
    (aspectDelta eastTestResort mildRow =
      (if get_val mildRow "temperature_2m" 0 > -2 ∧ get_val mildRow "cloud_cover" 0 < 60 then
        clamp ((get_val mildRow "temperature_2m" 0 + 5) * 0.8) 0 6
       else 0) ∧
     aspectDelta eastTestResort mildRow =
       aspectDelta { eastTestResort with aspect := "north" } mildRow ∧
     0 ≤ aspectDelta eastTestResort mildRow) :=
  ⟨by decide, aspect_nonsouth eastTestResort mildRow (by decide)⟩

/-- A three-location day-result mapping: two Engadin entries (the later one
scoring higher) and one Davos entry scoring highest overall. -/
def sampleDayResults : List (String × DayResult) :=
  [("Corviglia", { score := 50, concerns := [], summary := none }),
   ("Corvatsch", { score := 70, concerns := [], summary := none }),
   ("Parsenn", { score := 80, concerns := [], summary := none })]

/-- C9 witness: the `best_in_region` law at a concrete mapping and region. -/
theorem best_in_region_witness :
    sampleDayResults.filter
      (fun kv => (RESORT_BY_SHORT kv.1).any (fun r => r.region == "Engadin")) ≠ [] ∧
    (∃ s res pre post,
      best_in_region sampleDayResults "Engadin" = some s ∧
      sampleDayResults.filter
        (fun kv => (RESORT_BY_SHORT kv.1).any (fun r => r.region == "Engadin")) =
        pre ++ (s, res) :: post ∧
      (RESORT_BY_SHORT s).any (fun r => r.region == "Engadin") = true ∧
      (∀ kv ∈ pre, kv.2.score < res.score) ∧
      (∀ kv ∈ sampleDayResults.filter
          (fun kv => (RESORT_BY_SHORT kv.1).any (fun r => r.region == "Engadin")),
        kv.2.score ≤ res.score)) :=
  ⟨by with_unfolding_all decide,
   (best_in_region_spec sampleDayResults "Engadin").2 (by with_unfolding_all decide)⟩

end SkiChoice
